import Mathlib

/-!
Shallow embedding of `src/app.py`, a Streamlit credit-analysis app.

The app wraps a pre-trained binary classifier: an interactive form scores one
client at a time (`fazer_predicao`, `categorizar_risco`), appends each scoring
to a CSV log (`logs_predicoes.csv`, read by `carregar_log_predicoes`), shows a
basic drift metric (mean age over the last 30 days of the log), and scores
uploaded CSV tables in batch.  Python floats are modelled as `ℚ`, machine
integers as `ℤ`, fallible calls as `Option`, and the durable log file as a
structured value (per the spec, CSV-library serialization behaviour is out of
scope; pandas round-trips the written fields exactly).
-/

/-- A table cell: the CSV cells handled by the app are numbers or strings. -/
inductive Value where
  | num (q : ℚ)
  | str (s : String)
deriving DecidableEq

/-- Modelled from the spec: the serialized classifier artifact
`modelo_credito.pkl` is loaded by `carregar_modelo` but is not part of `src/`.
Per the spec it exposes a probability prediction over one 4-feature row; a
call that raises is modelled as `none`. -/
structure Modelo where
  predict_proba : List Value → Option ℚ

/-- Modelled from the spec: the artifact's label prediction.  The spec states
"decision: boolean (approved iff probability >= model's internal 0.5 cut
implied by predict)", so `predict` approves a row iff its probability
reaches 1/2. -/
def Modelo.predict (m : Modelo) (linha : List Value) : Option Bool :=
  (m.predict_proba linha).map (fun q => decide ((1 : ℚ)/2 ≤ q))

/-- `fazer_predicao` (src/app.py lines 105-114): returns the approval
probability `predict_proba(dados)[0][1]` and the decision `predict(dados)[0]`;
the `except` branch returns `(None, None)`, modelled as `none`. -/
def fazer_predicao (m : Modelo) (dados : List Value) : Option (ℚ × Bool) :=
  match m.predict_proba dados, m.predict dados with
  | some probabilidade, some decisao => some (probabilidade, decisao)
  | _, _ => none

/-- `categorizar_risco` (src/app.py lines 117-123). -/
def categorizar_risco (probabilidade : ℚ) : String × String :=
  if probabilidade ≥ 7/10 then ("Baixo Risco", "success")
  else if probabilidade ≥ 4/10 then ("Risco Médio", "warning")
  else ("Alto Risco", "danger")

/-- One row of the prediction log (`nova_linha`, src/app.py lines 265-273). -/
structure LogEntry where
  timestamp : ℤ
  idade : ℤ
  renda : ℤ
  score_credito : ℤ
  experiencia_credito : ℤ
  probabilidade : ℚ
  predicao : ℤ
deriving DecidableEq

/-- The fixed log header (src/app.py lines 75-79). -/
def colunasLog : List String :=
  ["timestamp", "idade", "renda", "score_credito", "experiencia_credito",
   "probabilidade", "predicao"]

/-- State of the log file `logs_predicoes.csv` on disk: missing, unparseable
(corrupt or an incompatible header), or a well-formed log written by the app
(header `colunasLog` plus entry rows). -/
inductive FileContent where
  | absent
  | corrupt
  | wellFormed (entries : List LogEntry)
deriving DecidableEq

/-- The in-memory log frame: column names plus rows. -/
structure LogFrame where
  cols : List String
  entries : List LogEntry
deriving DecidableEq

/-- `carregar_log_predicoes` (src/app.py lines 70-86): a parse failure or a
missing file both yield an empty frame with the expected seven columns. -/
def carregar_log_predicoes : FileContent → LogFrame
  | .wellFormed es => ⟨colunasLog, es⟩
  | .corrupt => ⟨colunasLog, []⟩
  | .absent => ⟨colunasLog, []⟩

/-- Arithmetic mean, as computed by pandas `.mean()`. -/
def media (xs : List ℚ) : ℚ := xs.sum / xs.length

/-- Mean of the `idade` column of a list of log entries. -/
def mediaIdade (es : List LogEntry) : ℚ := media (es.map (fun e => (e.idade : ℚ)))

/-- The rows whose timestamp lies within the last 30 days
(`limite_30d = datetime.now() - timedelta(days=30)`, src/app.py lines 191-192);
time is modelled in seconds. -/
def ultimos30d (agora : ℤ) (es : List LogEntry) : List LogEntry :=
  es.filter (fun e => decide (agora - 30 * 86400 ≤ e.timestamp))

/-- The drift-monitoring block (src/app.py lines 190-199): `some` is the
displayed metric, `none` the "Sem dados suficientes" caption. -/
def monitoramentoBasico (agora : ℤ) (df_log : LogFrame) : Option ℚ :=
  if ¬ df_log.entries.isEmpty ∧ "idade" ∈ df_log.cols then
    if ¬ (ultimos30d agora df_log.entries).isEmpty then
      some (mediaIdade (ultimos30d agora df_log.entries))
    else
      some (mediaIdade df_log.entries)
  else
    none

/-- The four client attributes collected by the form (src/app.py
lines 204-244). -/
structure Cliente where
  idade : ℤ
  renda : ℤ
  score_credito : ℤ
  experiencia_credito : ℤ
deriving DecidableEq

/-- `dados_cliente = np.array([[idade, renda, score_credito,
experiencia_credito]])` (src/app.py line 251): one feature row. -/
def dadosCliente (c : Cliente) : List Value :=
  [Value.num c.idade, Value.num c.renda, Value.num c.score_credito,
   Value.num c.experiencia_credito]

/-- One item of the in-memory session history (src/app.py lines 258-262). -/
structure ItemHistorico where
  hora : ℤ
  resultado : String
  probabilidade : ℚ
deriving DecidableEq

/-- The result rendered for one interactive scoring: the probability and
decision metrics and the risk category (src/app.py lines 284-305). -/
structure ResultadoAnalise where
  probabilidade : ℚ
  decisao : Bool
  categoria_risco : String
deriving DecidableEq

/-- The app state that survives an interaction: the per-session history list
and the durable log file. -/
structure EstadoApp where
  historico : List ItemHistorico
  file : FileContent
deriving DecidableEq

/-- `nova_linha` (src/app.py lines 265-273): the record appended to the log;
`predicao` stores `int(decisao)`. -/
def novaLinha (agora : ℤ) (c : Cliente) (probabilidade : ℚ) (decisao : Bool) :
    LogEntry :=
  ⟨agora, c.idade, c.renda, c.score_credito, c.experiencia_credito,
   probabilidade, if decisao then 1 else 0⟩

/-- The interactive scoring handler (src/app.py lines 249-310).  On a failed
prediction the `if probabilidade is not None` guard skips everything.
Otherwise the history is appended (line 258), the log frame reloaded at script
start (line 88) is extended and rewritten (lines 274-275), and only then is
the result rendered (lines 277-310).  `escritaOk` models whether
`df_log.to_csv` succeeds: the write is not guarded by any `try`, so when it
raises the script run aborts and the result block never renders (`none`),
while the history append has already happened. -/
def analisarCredito (m : Modelo) (agora : ℤ) (escritaOk : Bool) (c : Cliente)
    (s : EstadoApp) : EstadoApp × Option ResultadoAnalise :=
  match fazer_predicao m (dadosCliente c) with
  | none => (s, none)
  | some (probabilidade, decisao) =>
    let hist := s.historico ++
      [⟨agora, if decisao then "Aprovado" else "Negado", probabilidade⟩]
    let df_log := carregar_log_predicoes s.file
    let novo := df_log.entries ++ [novaLinha agora c probabilidade decisao]
    if escritaOk then
      (⟨hist, .wellFormed novo⟩,
       some ⟨probabilidade, decisao, (categorizar_risco probabilidade).1⟩)
    else
      (⟨hist, s.file⟩, none)

/-- N successive interactive scorings (each a full script rerun), with the
log write succeeding each time; each pair is (time of scoring, client). -/
def executarAnalises (m : Modelo) (pares : List (ℤ × Cliente))
    (s : EstadoApp) : EstadoApp :=
  pares.foldl (fun st par => (analisarCredito m par.1 true par.2 st).1) s

/-- An uploaded table: named columns in order, each with its cell values
(pandas assignment to an existing column name overwrites it in place). -/
abbrev Tabela := List (String × List Value)

def nomesColunas (t : Tabela) : List String := t.map (fun kv => kv.1)

def lookupCol : Tabela → String → Option (List Value)
  | [], _ => none
  | (k, w) :: t, c => if k = c then some w else lookupCol t c

/-- `df_lote[colunas_esperadas]`: column selection by name, in the given
order. -/
def selecionarColunas (t : Tabela) (cs : List String) : Tabela :=
  cs.map (fun c => (c, (lookupCol t c).getD []))

/-- `df[c] = vs`: replaces column `c` in place when present, else appends it
at the end (pandas semantics). -/
def definirColuna : Tabela → String → List Value → Tabela
  | [], c, vs => [(c, vs)]
  | (k, w) :: t, c, vs =>
    if k = c then (c, vs) :: t else (k, w) :: definirColuna t c vs

def numLinhas (t : Tabela) : ℕ :=
  match t with
  | [] => 0
  | kv :: _ => kv.2.length

def celula (t : Tabela) (c : String) (i : ℕ) : Value :=
  ((lookupCol t c).getD []).getD i (Value.num 0)

def linhaTabela (t : Tabela) (i : ℕ) : List Value :=
  t.map (fun kv => kv.2.getD i (Value.num 0))

def linhasTabela (t : Tabela) : List (List Value) :=
  (List.range (numLinhas t)).map (linhaTabela t)

/-- `colunas_esperadas` (src/app.py line 428). -/
def colunas_esperadas : List String :=
  ["idade", "renda", "score_credito", "experiencia_credito"]

/-- The model input chosen by the batch path (src/app.py lines 428-432): the
four named columns in canonical order when all are present, otherwise the
whole table as uploaded. -/
def X_lote (df_lote : Tabela) : Tabela :=
  if colunas_esperadas.all (fun col => (nomesColunas df_lote).contains col) then
    selecionarColunas df_lote colunas_esperadas
  else
    df_lote

/-- The batch-scoring computation (src/app.py lines 425-438): row-wise
`predict_proba` and `predict` over `X_lote`, then the `Probabilidade` column
and the `Resultado` column (`np.where(preds_lote == 1, 'Aprovado', 'Negado')`)
are assigned on the uploaded table.  `none` models a raised exception, caught
by the surrounding `except` which only shows an error message. -/
def processarLote (m : Modelo) (df_lote : Tabela) : Option Tabela := do
  let preds_proba_lote ← (linhasTabela (X_lote df_lote)).mapM m.predict_proba
  let preds_lote ← (linhasTabela (X_lote df_lote)).mapM m.predict
  let t1 := definirColuna df_lote "Probabilidade" (preds_proba_lote.map Value.num)
  some (definirColuna t1 "Resultado"
    (preds_lote.map (fun b => Value.str (if b then "Aprovado" else "Negado"))))

/-- The whole batch block (src/app.py lines 423-452) as a step on the app
state: `upload = none` models a file that fails to parse.  The block renders
and offers the result for download but performs no state write. -/
def analiseEmLote (m : Modelo) (upload : Option Tabela) (s : EstadoApp) :
    EstadoApp × Option Tabela :=
  (s, upload.bind (processarLote m))

/-! Concrete instances used by witnesses and counterexamples. -/

/-- A model that returns probability 3/4 for every row. -/
def mExemplo : Modelo := ⟨fun _ => some (3/4)⟩

/-- A model that returns probability 1 for every row. -/
def mUm : Modelo := ⟨fun _ => some 1⟩

/-- A model whose prediction always raises. -/
def mFalha : Modelo := ⟨fun _ => none⟩

def clienteExemplo : Cliente := ⟨35, 5000, 650, 2⟩

def clienteExemplo2 : Cliente := ⟨50, 2000, 700, 3⟩

def estadoInicial : EstadoApp := ⟨[], .absent⟩

/-- A log entry 30 days older than the times used in the witnesses. -/
def entradaAntiga : LogEntry := ⟨0, 40, 3000, 600, 1, 1/2, 1⟩

def paresExemplo : List (ℤ × Cliente) :=
  [(10, clienteExemplo), (20, clienteExemplo2)]

/-- The four expected columns present by name but in scrambled order, plus an
extra column. -/
def tabelaEmbaralhada : Tabela :=
  [("extra", [Value.str "x"]),
   ("renda", [Value.num 5000]),
   ("idade", [Value.num 35]),
   ("experiencia_credito", [Value.num 2]),
   ("score_credito", [Value.num 650])]

/-- Batch output of `mExemplo` on `tabelaEmbaralhada`. -/
def saidaEmbaralhada : Tabela :=
  tabelaEmbaralhada ++
    [("Probabilidade", [Value.num (3/4)]), ("Resultado", [Value.str "Aprovado"])]

/-- An uploaded table that already contains a column named `Probabilidade`. -/
def tabelaComProb : Tabela := [("Probabilidade", [Value.num 0])]

/-! Helper lemmas. -/

theorem lookup_definir_self (t : Tabela) (c : String) (vs : List Value) :
    lookupCol (definirColuna t c vs) c = some vs := by
  induction t with
  | nil => simp [definirColuna, lookupCol]
  | cons kv t ih =>
    obtain ⟨k, w⟩ := kv
    by_cases h : k = c
    · subst h
      simp [definirColuna, lookupCol]
    · simp [definirColuna, lookupCol, h, ih]

theorem lookup_definir_ne (t : Tabela) (c cq : String) (vs : List Value)
    (h : cq ≠ c) :
    lookupCol (definirColuna t c vs) cq = lookupCol t cq := by
  induction t with
  | nil =>
    simp [definirColuna, lookupCol, Ne.symm h]
  | cons kv t ih =>
    obtain ⟨k, w⟩ := kv
    by_cases hk : k = c
    · subst hk
      simp [definirColuna, lookupCol, Ne.symm h]
    · by_cases hq : k = cq
      · subst hq
        simp [definirColuna, lookupCol, hk]
      · simp [definirColuna, lookupCol, hk, hq, ih]

theorem mapM_proba_predict (m : Modelo) :
    ∀ {linhas : List (List Value)} {qs : List ℚ} {bs : List Bool},
      linhas.mapM m.predict_proba = some qs →
      linhas.mapM m.predict = some bs →
      bs = qs.map (fun q => decide ((1 : ℚ)/2 ≤ q)) ∧
        List.Forall₂ (fun linha pd => fazer_predicao m linha = some pd)
          linhas (qs.zip bs) := by
  intro linhas
  induction linhas with
  | nil =>
    intro qs bs h1 h2
    simp only [List.mapM_nil, Option.pure_def, Option.some.injEq] at h1 h2
    subst h1; subst h2
    exact ⟨rfl, List.Forall₂.nil⟩
  | cons x xs ih =>
    intro qs bs h1 h2
    rw [List.mapM_cons] at h1 h2
    simp only [Option.pure_def, Option.bind_eq_bind, Option.bind_eq_some,
      Option.some.injEq] at h1 h2
    obtain ⟨q, hq, qs', hqs', rfl⟩ := h1
    obtain ⟨b, hb, bs', hbs', rfl⟩ := h2
    have hbq : b = decide ((1 : ℚ)/2 ≤ q) := by
      rw [Modelo.predict, hq] at hb
      simpa using hb.symm
    obtain ⟨h1', h2'⟩ := ih hqs' hbs'
    refine ⟨by rw [List.map_cons, hbq, h1'], ?_⟩
    rw [hbq] at hb ⊢
    refine List.Forall₂.cons ?_ h2'
    simp [fazer_predicao, hq, hb]

theorem processarLote_destruct (m : Modelo) (df_lote saida : Tabela)
    (h : processarLote m df_lote = some saida) :
    ∃ qs bs,
      (linhasTabela (X_lote df_lote)).mapM m.predict_proba = some qs ∧
      (linhasTabela (X_lote df_lote)).mapM m.predict = some bs ∧
      saida = definirColuna
        (definirColuna df_lote "Probabilidade" (qs.map Value.num))
        "Resultado"
        (bs.map (fun b => Value.str (if b then "Aprovado" else "Negado"))) := by
  unfold processarLote at h
  cases h1 : (linhasTabela (X_lote df_lote)).mapM m.predict_proba with
  | none => rw [h1] at h; simp at h
  | some qs =>
    rw [h1] at h
    cases h2 : (linhasTabela (X_lote df_lote)).mapM m.predict with
    | none => rw [h2] at h; simp at h
    | some bs =>
      rw [h2] at h
      simp only [Option.bind_eq_bind, Option.some_bind, Option.some.injEq] at h
      exact ⟨qs, bs, rfl, rfl, h.symm⟩

theorem executar_acumula (m : Modelo) (f : ℤ × Cliente → ℚ × Bool) :
    ∀ (pares : List (ℤ × Cliente)) (s : EstadoApp) (es : List LogEntry),
      (carregar_log_predicoes s.file).entries = es →
      (∀ par ∈ pares, fazer_predicao m (dadosCliente par.2) = some (f par)) →
      (carregar_log_predicoes (executarAnalises m pares s).file).entries =
        es ++ pares.map
          (fun par => novaLinha par.1 par.2 (f par).1 (f par).2) := by
  intro pares
  induction pares with
  | nil =>
    intro s es hes _
    simpa [executarAnalises] using hes
  | cons par pares ih =>
    intro s es hes hf
    have hpar := hf par (by simp)
    rcases hfp : f par with ⟨q, b⟩
    rw [hfp] at hpar
    have hstep : (analisarCredito m par.1 true par.2 s).1 =
        ⟨s.historico ++ [⟨par.1, if b then "Aprovado" else "Negado", q⟩],
         .wellFormed (es ++ [novaLinha par.1 par.2 q b])⟩ := by
      simp [analisarCredito, hpar, hes]
    have hrec := ih (analisarCredito m par.1 true par.2 s).1
      (es ++ [novaLinha par.1 par.2 q b])
      (by rw [hstep]; rfl)
      (fun p hp => hf p (by simp [hp]))
    calc (carregar_log_predicoes
            (executarAnalises m (par :: pares) s).file).entries
        = (carregar_log_predicoes
            (executarAnalises m pares
              (analisarCredito m par.1 true par.2 s).1).file).entries := by
          simp [executarAnalises]
      _ = (es ++ [novaLinha par.1 par.2 q b]) ++ pares.map
            (fun p => novaLinha p.1 p.2 (f p).1 (f p).2) := hrec
      _ = es ++ (par :: pares).map
            (fun p => novaLinha p.1 p.2 (f p).1 (f p).2) := by
          simp [hfp]

/-! Claim theorems. -/

/-- Claim C1: for every probability p, `categorizar_risco` returns
"Baixo Risco" iff p ≥ 0.7, "Risco Médio" iff 0.4 ≤ p < 0.7 and "Alto Risco"
iff p < 0.4; it is a pure function of its argument alone. -/
theorem risco_classificacao (p : ℚ) :
    ((categorizar_risco p).1 = "Baixo Risco" ↔ (7 : ℚ)/10 ≤ p) ∧
    ((categorizar_risco p).1 = "Risco Médio" ↔
      (4 : ℚ)/10 ≤ p ∧ p < (7 : ℚ)/10) ∧
    ((categorizar_risco p).1 = "Alto Risco" ↔ p < (4 : ℚ)/10) := by
  unfold categorizar_risco
  split_ifs with h1 h2
  · exact ⟨iff_of_true rfl h1,
      iff_of_false (by decide) (by rintro ⟨-, hc⟩; linarith),
      iff_of_false (by decide) (by intro hc; linarith)⟩
  · exact ⟨iff_of_false (by decide) h1,
      iff_of_true rfl ⟨h2, lt_of_not_le h1⟩,
      iff_of_false (by decide) (by intro hc; linarith)⟩
  · exact ⟨iff_of_false (by decide) h1,
      iff_of_false (by decide) (by rintro ⟨hc, -⟩; exact h2 hc),
      iff_of_true rfl (lt_of_not_le h2)⟩

/-- Claim C2: every decision produced by scoring equals
(probability ≥ 0.5), in the interactive path (`fazer_predicao`) and in the
batch path (`processarLote`, whose `Resultado` column is derived from the
same probabilities by the same 0.5 threshold). -/
theorem limiar_aprovacao_unico :
    (∀ (m : Modelo) (dados : List Value) (p : ℚ) (d : Bool),
        fazer_predicao m dados = some (p, d) → (d = true ↔ (1 : ℚ)/2 ≤ p)) ∧
    (∀ (m : Modelo) (df_lote saida : Tabela),
        processarLote m df_lote = some saida →
        ∃ qs : List ℚ,
          lookupCol saida "Probabilidade" = some (qs.map Value.num) ∧
          lookupCol saida "Resultado" = some (qs.map (fun q =>
            Value.str (if (1 : ℚ)/2 ≤ q then "Aprovado" else "Negado")))) := by
  constructor
  · intro m dados p d h
    unfold fazer_predicao at h
    cases hq : m.predict_proba dados with
    | none => rw [hq] at h; simp at h
    | some q =>
      have hd : m.predict dados = some (decide ((1 : ℚ)/2 ≤ q)) := by
        simp [Modelo.predict, hq]
      rw [hq, hd] at h
      simp only [Option.some.injEq, Prod.mk.injEq] at h
      obtain ⟨rfl, rfl⟩ := h
      simp
  · intro m df_lote saida h
    obtain ⟨qs, bs, h1, h2, rfl⟩ := processarLote_destruct m df_lote saida h
    obtain ⟨hbs, -⟩ := mapM_proba_predict m h1 h2
    refine ⟨qs, ?_, ?_⟩
    · rw [lookup_definir_ne _ _ _ _ (by decide)]
      exact lookup_definir_self _ _ _
    · rw [lookup_definir_self, hbs, List.map_map]
      simp [Function.comp]

/-- Claim C2 witness: a concrete interactive scoring whose decision agrees
with the 0.5 threshold. -/
theorem limiar_aprovacao_unico_aplicado :
    fazer_predicao mExemplo (dadosCliente clienteExemplo) =
      some (3/4, true) ∧ (true = true ↔ (1 : ℚ)/2 ≤ 3/4) := by
  have hpred : fazer_predicao mExemplo (dadosCliente clienteExemplo) =
      some (3/4, true) := by
    simp [fazer_predicao, mExemplo, Modelo.predict]
    norm_num
  exact ⟨hpred, limiar_aprovacao_unico.1 mExemplo (dadosCliente clienteExemplo)
    (3/4) true hpred⟩

/-- Claim C7: the batch path never touches the app state: the session
history, the log file, and therefore the loaded log frame are unchanged,
whether the upload parses and scores or fails. -/
theorem lote_nao_escreve_log (m : Modelo) (upload : Option Tabela)
    (s : EstadoApp) :
    (analiseEmLote m upload s).1 = s ∧
    carregar_log_predicoes (analiseEmLote m upload s).1.file =
      carregar_log_predicoes s.file :=
  ⟨rfl, rfl⟩

/-- Claim C8 counterexample: the log write (src/app.py lines 274-275) is not
guarded and precedes the result block (lines 277-310), so at this concrete
input the prediction completes, the write fails, and no result is displayed —
refuting "the probability, decision, and risk category of that scoring are
still displayed even when the log write fails". -/
theorem falha_escrita_contraexemplo :
    fazer_predicao mExemplo (dadosCliente clienteExemplo) =
      some (3/4, true) ∧
    (analisarCredito mExemplo 7 false clienteExemplo estadoInicial).2 =
      none := by
  have hpred : fazer_predicao mExemplo (dadosCliente clienteExemplo) =
      some (3/4, true) := by
    simp [fazer_predicao, mExemplo, Modelo.predict]
    norm_num
  exact ⟨hpred, by simp [analisarCredito, hpred]⟩

/-- Claim C8 (amended): a failure to write the LogEntry aborts the remainder
of the handler: no probability, decision, or risk category is displayed for
that scoring (the unguarded write precedes the display). -/
theorem falha_escrita_sem_exibicao (m : Modelo) (agora : ℤ) (c : Cliente)
    (s : EstadoApp) :
    (analisarCredito m agora false c s).2 = none := by
  cases hp : fazer_predicao m (dadosCliente c) with
  | none => simp [analisarCredito, hp]
  | some pd =>
    obtain ⟨p, d⟩ := pd
    simp [analisarCredito, hp]

/-- Claim C10: when the prediction fails (`fazer_predicao` returns None), the
scoring changes no state and displays no result: the history is not appended,
the log file is not written, the result block is skipped. -/
theorem predicao_falha_atomica (m : Modelo) (agora : ℤ) (escritaOk : Bool)
    (c : Cliente) (s : EstadoApp)
    (h : fazer_predicao m (dadosCliente c) = none) :
    analisarCredito m agora escritaOk c s = (s, none) := by
  simp [analisarCredito, h]

/-- Claim C10 witness: a model whose prediction raises leaves a concrete
state untouched. -/
theorem predicao_falha_aplicada :
    analisarCredito mFalha 0 true clienteExemplo estadoInicial =
      (estadoInicial, none) :=
  predicao_falha_atomica mFalha 0 true clienteExemplo estadoInicial
    (by simp [fazer_predicao, mFalha])

/-- Claim C3: starting from an empty or absent log, N interactive scorings
followed by `carregar_log_predicoes` yield exactly N entries equal, field by
field (timestamp, idade, renda, score_credito, experiencia_credito,
probabilidade, predicao), to the records written; the probability is
round-tripped exactly. -/
theorem log_roundtrip (m : Modelo) (f : ℤ × Cliente → ℚ × Bool)
    (pares : List (ℤ × Cliente)) (s : EstadoApp)
    (hs : s.file = .absent ∨ s.file = .wellFormed [])
    (hf : ∀ par ∈ pares, fazer_predicao m (dadosCliente par.2) = some (f par)) :
    (carregar_log_predicoes (executarAnalises m pares s).file).entries =
      pares.map (fun par => novaLinha par.1 par.2 (f par).1 (f par).2) ∧
    (carregar_log_predicoes
      (executarAnalises m pares s).file).entries.length = pares.length := by
  have hes : (carregar_log_predicoes s.file).entries = [] := by
    rcases hs with h | h <;> rw [h] <;> rfl
  have hmain := executar_acumula m f pares s [] hes hf
  rw [List.nil_append] at hmain
  exact ⟨hmain, by rw [hmain, List.length_map]⟩

/-- Claim C3 witness: two concrete scorings starting from an absent log. -/
theorem log_roundtrip_aplicado :
    (carregar_log_predicoes
      (executarAnalises mExemplo paresExemplo estadoInicial).file).entries =
      [novaLinha 10 clienteExemplo (3/4) true,
       novaLinha 20 clienteExemplo2 (3/4) true] ∧
    (carregar_log_predicoes
      (executarAnalises mExemplo paresExemplo
        estadoInicial).file).entries.length = 2 := by
  have h := log_roundtrip mExemplo (fun _ => (3/4, true)) paresExemplo
    estadoInicial (Or.inl rfl)
    (fun par _ => by simp [fazer_predicao, mExemplo, Modelo.predict]; norm_num)
  simpa [paresExemplo] using h

/-- Claim C4: over a log frame actually produced by loading the log file, the
drift monitor returns the mean idade of the entries of the last 30 days;
falls back to the mean idade of the whole log when the log is non-empty but
no entry is recent; and reports insufficient data (`none`) exactly when the
log is empty. -/
theorem monitoramento_drift (agora : ℤ) (fc : FileContent) :
    ((carregar_log_predicoes fc).entries = [] →
      monitoramentoBasico agora (carregar_log_predicoes fc) = none) ∧
    ((carregar_log_predicoes fc).entries ≠ [] →
      ultimos30d agora (carregar_log_predicoes fc).entries ≠ [] →
      monitoramentoBasico agora (carregar_log_predicoes fc) =
        some (mediaIdade (ultimos30d agora (carregar_log_predicoes fc).entries))) ∧
    ((carregar_log_predicoes fc).entries ≠ [] →
      ultimos30d agora (carregar_log_predicoes fc).entries = [] →
      monitoramentoBasico agora (carregar_log_predicoes fc) =
        some (mediaIdade (carregar_log_predicoes fc).entries)) := by
  have hcols : "idade" ∈ (carregar_log_predicoes fc).cols := by
    cases fc <;> simp [carregar_log_predicoes, colunasLog]
  refine ⟨?_, ?_, ?_⟩
  · intro h
    simp [monitoramentoBasico, h]
  · intro h1 h2
    rw [monitoramentoBasico, if_pos ⟨by simpa [List.isEmpty_iff] using h1, hcols⟩,
      if_pos (by simpa [List.isEmpty_iff] using h2)]
  · intro h1 h2
    rw [monitoramentoBasico, if_pos ⟨by simpa [List.isEmpty_iff] using h1, hcols⟩,
      if_neg (by simp [List.isEmpty_iff, h2])]

/-- Claim C4 witness: a one-entry log whose entry is older than 30 days
(timestamp 0, now 2592001 s): the monitor falls back to the full-log mean
idade, 40. -/
theorem monitoramento_drift_aplicado :
    monitoramentoBasico 2592001
      (carregar_log_predicoes (.wellFormed [entradaAntiga])) = some 40 := by
  have h := (monitoramento_drift 2592001 (.wellFormed [entradaAntiga])).2.2
    (by simp [carregar_log_predicoes])
    (by simp [carregar_log_predicoes, ultimos30d, entradaAntiga])
  rw [h]
  norm_num [carregar_log_predicoes, mediaIdade, media, entradaAntiga]

/-- Claim C9: an unparseable pre-existing log is replaced on load by an empty
frame with exactly the expected seven-column schema, and the next interactive
scoring appends its entry to that replaced (empty) log, yielding a
well-formed one-entry log. -/
theorem log_corrompido_substituido :
    (carregar_log_predicoes .corrupt = ⟨colunasLog, []⟩ ∧
      colunasLog.length = 7) ∧
    ∀ (m : Modelo) (agora : ℤ) (c : Cliente) (s : EstadoApp) (p : ℚ) (d : Bool),
      s.file = .corrupt →
      fazer_predicao m (dadosCliente c) = some (p, d) →
      (analisarCredito m agora true c s).1.file =
        .wellFormed [novaLinha agora c p d] := by
  refine ⟨⟨rfl, rfl⟩, ?_⟩
  intro m agora c s p d hfile hpred
  simp [analisarCredito, hpred, hfile, carregar_log_predicoes]

/-- Claim C9 witness: a concrete scoring on top of a corrupt log file. -/
theorem log_corrompido_aplicado :
    (analisarCredito mExemplo 0 true clienteExemplo ⟨[], .corrupt⟩).1.file =
      .wellFormed [novaLinha 0 clienteExemplo (3/4) true] :=
  log_corrompido_substituido.2 mExemplo 0 clienteExemplo ⟨[], .corrupt⟩
    (3/4) true rfl
    (by simp [fazer_predicao, mExemplo, Modelo.predict]; norm_num)

/-- Concrete batch evaluation shared by the batch witnesses: scoring the
scrambled table appends the two result columns. -/
theorem processarLote_embaralhada :
    processarLote mExemplo tabelaEmbaralhada = some saidaEmbaralhada := by
  have hdec : decide ((1 : ℚ)/2 ≤ 3/4) = true := by norm_num
  simp [processarLote, mExemplo, Modelo.predict, X_lote, colunas_esperadas,
    nomesColunas, tabelaEmbaralhada, saidaEmbaralhada, linhasTabela, numLinhas,
    linhaTabela, selecionarColunas, lookupCol, definirColuna,
    List.mapM.loop, List.range_succ, hdec]
  norm_num

/-- Claim C5 counterexample: an uploaded table that already has a column
named `Probabilidade` does not keep it: `df_lote['Probabilidade'] = ...`
(src/app.py line 437) overwrites it (values 0 become 1 here), refuting "the
output is the input table with all its original columns preserved". -/
theorem lote_sobrescreve_probabilidade :
    processarLote mUm tabelaComProb =
      some [("Probabilidade", [Value.num 1]),
            ("Resultado", [Value.str "Aprovado"])] ∧
    lookupCol tabelaComProb "Probabilidade" = some [Value.num 0] ∧
    lookupCol [("Probabilidade", [Value.num 1]),
               ("Resultado", [Value.str "Aprovado"])] "Probabilidade" =
      some [Value.num 1] ∧
    Value.num 1 ≠ Value.num 0 := by
  refine ⟨?_, by simp [lookupCol, tabelaComProb], by simp [lookupCol], by simp⟩
  have hdec : decide ((1 : ℚ)/2 ≤ 1) = true := by norm_num
  simp [processarLote, mUm, Modelo.predict, X_lote, colunas_esperadas,
    nomesColunas, tabelaComProb, linhasTabela, numLinhas, linhaTabela,
    selecionarColunas, lookupCol, definirColuna, List.mapM.loop,
    List.range_succ, hdec]
  norm_num

/-- Claim C5 (amended): the scorer selects the four named columns in
canonical order when all are present and passes the whole table through
otherwise; the output preserves every original column except one already
named `Probabilidade` or `Resultado` (those are overwritten), and carries a
`Probabilidade` column of probabilities and a `Resultado` column whose every
value is "Aprovado" or "Negado". -/
theorem lote_saida_colunas (m : Modelo) (df_lote saida : Tabela)
    (h : processarLote m df_lote = some saida) :
    (colunas_esperadas.all
        (fun col => (nomesColunas df_lote).contains col) = true →
      X_lote df_lote = selecionarColunas df_lote colunas_esperadas) ∧
    (colunas_esperadas.all
        (fun col => (nomesColunas df_lote).contains col) = false →
      X_lote df_lote = df_lote) ∧
    (∀ col : String, col ≠ "Probabilidade" → col ≠ "Resultado" →
      lookupCol saida col = lookupCol df_lote col) ∧
    (∃ qs : List ℚ,
      lookupCol saida "Probabilidade" = some (qs.map Value.num)) ∧
    (∃ rs : List Value, lookupCol saida "Resultado" = some rs ∧
      ∀ v ∈ rs, v = Value.str "Aprovado" ∨ v = Value.str "Negado") := by
  obtain ⟨qs, bs, h1, h2, rfl⟩ := processarLote_destruct m df_lote saida h
  refine ⟨?_, ?_, ?_, ?_, ?_⟩
  · intro hc
    rw [X_lote, if_pos hc]
  · intro hc
    have hcf : ¬ (colunas_esperadas.all
        (fun col => (nomesColunas df_lote).contains col) = true) := by
      rw [hc]; simp
    rw [X_lote, if_neg hcf]
  · intro col hP hR
    rw [lookup_definir_ne _ _ _ _ hR, lookup_definir_ne _ _ _ _ hP]
  · refine ⟨qs, ?_⟩
    rw [lookup_definir_ne _ _ _ _ (by decide)]
    exact lookup_definir_self _ _ _
  · refine ⟨bs.map (fun b => Value.str (if b then "Aprovado" else "Negado")),
      lookup_definir_self _ _ _, ?_⟩
    intro v hv
    rw [List.mem_map] at hv
    obtain ⟨b, -, rfl⟩ := hv
    cases b
    · exact Or.inr rfl
    · exact Or.inl rfl

/-- Claim C5 witness: on the scrambled table (which has no `Probabilidade`
or `Resultado` column), the original `idade` column is preserved in the
output. -/
theorem lote_saida_colunas_aplicado :
    lookupCol saidaEmbaralhada "idade" = lookupCol tabelaEmbaralhada "idade" :=
  (lote_saida_colunas mExemplo tabelaEmbaralhada saidaEmbaralhada
    processarLote_embaralhada).2.2.1 "idade" (by decide) (by decide)

/-- Claim C6: when the four expected columns are present by name, batch
scoring selects features by name (each model-input row is exactly the
canonical quadruple of the named cells of that row, whatever the column
order), and row by row the (probability, decision) pair equals what the
interactive `fazer_predicao` returns on that same feature row. -/
theorem lote_refina_interativo (m : Modelo) (df_lote saida : Tabela)
    (h4 : ∀ col ∈ colunas_esperadas, col ∈ nomesColunas df_lote)
    (h : processarLote m df_lote = some saida) :
    (∀ i : ℕ, linhaTabela (X_lote df_lote) i =
      [celula df_lote "idade" i, celula df_lote "renda" i,
       celula df_lote "score_credito" i,
       celula df_lote "experiencia_credito" i]) ∧
    ∃ (qs : List ℚ) (bs : List Bool),
      lookupCol saida "Probabilidade" = some (qs.map Value.num) ∧
      lookupCol saida "Resultado" = some (bs.map (fun b =>
        Value.str (if b then "Aprovado" else "Negado"))) ∧
      List.Forall₂ (fun linha pd => fazer_predicao m linha = some pd)
        (linhasTabela (X_lote df_lote)) (qs.zip bs) := by
  have hX : X_lote df_lote = selecionarColunas df_lote colunas_esperadas := by
    rw [X_lote, if_pos]
    rw [List.all_eq_true]
    intro col hcol
    exact List.elem_iff.mpr (h4 col hcol)
  constructor
  · intro i
    rw [hX]
    simp [linhaTabela, selecionarColunas, celula, colunas_esperadas,
      List.map_map, Function.comp]
  · obtain ⟨qs, bs, h1, h2, rfl⟩ := processarLote_destruct m df_lote saida h
    obtain ⟨-, hforall⟩ := mapM_proba_predict m h1 h2
    refine ⟨qs, bs, ?_, lookup_definir_self _ _ _, hforall⟩
    rw [lookup_definir_ne _ _ _ _ (by decide)]
    exact lookup_definir_self _ _ _

/-- Claim C6 witness: on the concrete scrambled table the model-input row is
the canonical quadruple selected by name. -/
theorem lote_refina_aplicado :
    linhaTabela (X_lote tabelaEmbaralhada) 0 =
      [celula tabelaEmbaralhada "idade" 0, celula tabelaEmbaralhada "renda" 0,
       celula tabelaEmbaralhada "score_credito" 0,
       celula tabelaEmbaralhada "experiencia_credito" 0] :=
  (lote_refina_interativo mExemplo tabelaEmbaralhada saidaEmbaralhada
    (by decide) processarLote_embaralhada).1 0
